import Mathlib

/-!
Verification development for the training script `src/model/train.py` of the
ml-skeleton-py repository.

The script is a linear sequence of library calls: load a CSV, shuffle it,
5-fold cross-validate a random-forest regressor, fit it on the whole dataset,
serialize the fitted model with joblib, and write a metadata record via the
mlmonkey `ModelMetadata` class.

Modelling choices:
* pandas DataFrames are embedded as a list of column names plus a list of
  rows (each row a list of cells; a cell is a string or a rational number —
  rationals stand in for the floating-point values, since every claim is
  about structure, ordering and exact arithmetic identities, not rounding).
* The external libraries (pandas sampling, sklearn cross-validation /
  fitting, joblib, mlmonkey file writing) are collaborators: they appear as
  an abstract record of functions `MLLib`, each fallible call returning
  `Except PyError`.  The repository code under verification is the glue in
  `train.py`, embedded faithfully below (`get_data_location`,
  `load_dataset`, `train`).
* Reading the CSV from disk is a separate parameter `csv : String → Except
  PyError DataFrame`, so that runs against different filesystem contents can
  be compared.
* Each run also produces an ordered trace of events; the durable artifacts
  written by a run are exactly its `dumpModel` and `saveMetadata` events.
* The mlmonkey `ModelMetadata` class is not part of this repository; its
  construction and `add_score` are modelled from the specification.
-/

/-- A cell of a tabular dataset: a string (the species column) or a number. -/
inductive Cell where
  | str (s : String)
  | num (q : Rat)
deriving DecidableEq, Repr

/-- A pandas DataFrame: named columns and rows of cells; cell `i` of a row
belongs to column `i`. -/
structure DataFrame where
  columns : List String
  rows : List (List Cell)
deriving DecidableEq, Repr

/-- Errors surfaced by the Python libraries. -/
inductive PyError where
  | keyError (s : String)
  | ioError (s : String)
  | valueError (s : String)
deriving DecidableEq, Repr

/-- The result dict of sklearn cross_validate for the two requested scorers:
the per-fold test scores for r2 and for neg_mean_squared_error. -/
structure CVScores where
  test_r2 : List Rat
  test_neg_mean_squared_error : List Rat
deriving DecidableEq, Repr

/-- Configuration of sklearn KFold(n_splits, shuffle, random_state). -/
structure KFoldCfg where
  n_splits : Nat
  shuffle : Bool
  random_state : Nat
deriving DecidableEq, Repr

/-- Configuration of sklearn RandomForestRegressor(n_estimators, random_state). -/
structure RFCfg where
  n_estimators : Nat
  random_state : Nat
deriving DecidableEq, Repr

/-- The nested dict built at train.py lines 82-85: actual and predicted values. -/
structure ActualPredicted where
  actual : List Cell
  predicted : List Cell
deriving DecidableEq, Repr

/-- The extra_metadata dict built at train.py lines 80-86. -/
structure ExtraMetadata where
  data_type : String
  actual_and_predicted : ActualPredicted
deriving DecidableEq, Repr

/-- Modelled from the spec: the mlmonkey ModelMetadata record (the class is a
third-party collaborator, not part of this repository).  Fields follow
section 3 of the specification: model location, opaque model handle,
description, source data location, optional target name, ordered feature
names, ordered (name, importance) pairs, testing strategy, optional holdout
info, scores keyed by (metric, phase), and an open extra-metadata mapping. -/
structure ModelMetadata (M : Type) where
  model_location : String
  model_ref : M
  description : String
  source_data_location : String
  target_name : Option String
  feature_names : List String
  feature_importances : List (String × Rat)
  testing_strategy : String
  holdout_info : Option String
  scores : List ((String × String) × Rat)
  extra_metadata : ExtraMetadata
deriving DecidableEq, Repr

/-- Modelled from the spec: construction of a ModelMetadata record stores the
supplied fields verbatim (pure construction, no input/output); scores start
empty and are added afterwards through add_score. -/
def ModelMetadata.construct (model_location : String) (model_ref : M)
    (description source_data_location : String) (target_name : Option String)
    (feature_names : List String) (feature_importances : List (String × Rat))
    (testing_strategy : String) (holdout_info : Option String)
    (extra_metadata : ExtraMetadata) : ModelMetadata M :=
  { model_location := model_location, model_ref := model_ref,
    description := description, source_data_location := source_data_location,
    target_name := target_name, feature_names := feature_names,
    feature_importances := feature_importances,
    testing_strategy := testing_strategy, holdout_info := holdout_info,
    scores := [], extra_metadata := extra_metadata }

/-- Modelled from the spec: add_score appends or overwrites the score for the
(metric_name, phase) key; calling twice with the same key overwrites, last
write wins. -/
def ModelMetadata.add_score (m : ModelMetadata M) (metric phase : String)
    (value : Rat) : ModelMetadata M :=
  { m with scores :=
      (m.scores.filter (fun e => !(e.1 == (metric, phase)))) ++
        [((metric, phase), value)] }

/-- Abstract semantics of the external library collaborators, parametric in
the type M of fitted model objects.  Each function is deterministic (given
its explicit random seed where sklearn/pandas take one) and may fail. -/
structure MLLib (M : Type) where
  sample_shuffle : Nat → DataFrame → DataFrame
  cross_validate : KFoldCfg → RFCfg → DataFrame → List Cell → Except PyError CVScores
  cross_val_predict : KFoldCfg → RFCfg → DataFrame → List Cell → Except PyError (List Cell)
  fit : RFCfg → DataFrame → List Cell → Except PyError M
  feature_importances : M → List Rat
  joblib_dump : M → String → Except PyError Unit
  save_to_file : ModelMetadata M → String → Except PyError String

/-- The three path settings from src/settings.py consumed by train.py. -/
structure Settings where
  DATA_TRANSFORMED : String
  MODEL_DIR : String
  MODEL_METADATA_DIR : String
deriving DecidableEq, Repr

/-- Tests whether a string starts with the posix separator. -/
def startsWithSlash (s : String) : Bool :=
  match s.data with
  | [] => false
  | c :: _ => c == '/'

/-- Tests whether a string ends with the posix separator. -/
def endsWithSlash (s : String) : Bool :=
  match s.data.getLast? with
  | some c => c == '/'
  | none => false

/-- Python os.path.join for two posix path components: an absolute second
component wins; otherwise the components are joined, inserting a separator
unless the first component is empty or already ends with one. -/
def os_path_join (a b : String) : String :=
  if startsWithSlash b then b
  else if a = "" then b
  else if endsWithSlash a then a ++ b
  else a ++ "/" ++ b

/-- Steps of a run, in the order they complete; dumpModel and saveMetadata
are the durable writes. -/
inductive Event where
  | readCsv (path : String)
  | shuffle
  | crossValidate
  | crossValPredict
  | fit
  | dumpModel (path : String)
  | saveMetadata (dir : String)
deriving DecidableEq, Repr

/-- Outcome of one run of train: the ordered trace of completed steps and
either the metadata record that was written or the propagated error. -/
structure TrainRun (M : Type) where
  events : List Event
  result : Except PyError (ModelMetadata M)

/-- Embeds get_data_location (train.py lines 19-25):
os.path.join(s.DATA_TRANSFORMED, input_data_filename). -/
def get_data_location (st : Settings) (input_data_filename : String) : String :=
  os_path_join st.DATA_TRANSFORMED input_data_filename

/-- pandas data.drop(columns=cols): removes the named columns, raising a
KeyError when any of them is absent. -/
def DataFrame.dropColumns (df : DataFrame) (cols : List String) :
    Except PyError DataFrame :=
  if cols.all (fun c => df.columns.contains c) then
    .ok { columns := df.columns.filter (fun c => !(cols.contains c)),
          rows := df.rows.map (fun r =>
            ((df.columns.zip r).filter (fun p => !(cols.contains p.1))).map Prod.snd) }
  else .error (.keyError "not found in axis")

/-- pandas data[c]: the values of column c, one per row, raising a KeyError
when the column is absent. -/
def DataFrame.getCol (df : DataFrame) (c : String) : Except PyError (List Cell) :=
  match df.columns.findIdx? (fun s => s == c) with
  | some i => .ok (df.rows.map (fun r => r.getD i (Cell.num 0)))
  | none => .error (.keyError c)

/-- Embeds load_dataset (train.py lines 28-40): read the CSV at the resolved
location, shuffle it with random_state=1, drop the species and petal_length
columns to form X, and take the petal_length column as y.  Also returns the
trace of completed steps. -/
def load_dataset (lib : MLLib M) (csv : String → Except PyError DataFrame)
    (st : Settings) (input_data_filename : String) :
    List Event × Except PyError (DataFrame × List Cell) :=
  let data_location := get_data_location st input_data_filename
  match csv data_location with
  | .error e => ([], .error e)
  | .ok data0 =>
    let data := lib.sample_shuffle 1 data0
    match data.dropColumns ["species", "petal_length"] with
    | .error e => ([Event.readCsv data_location, Event.shuffle], .error e)
    | .ok data_X =>
      match data.getCol "petal_length" with
      | .error e => ([Event.readCsv data_location, Event.shuffle], .error e)
      | .ok data_y =>
        ([Event.readCsv data_location, Event.shuffle], .ok (data_X, data_y))

/-- numpy array.mean(): the arithmetic mean of a list of values. -/
def listMean (l : List Rat) : Rat := l.sum / (l.length : Rat)

/-- The metadata record assembled at train.py lines 74-94: construction with
the literal description, model location MODEL_DIR/model_filename.joblib,
source data location, feature names from the columns of X, the positional
zip of feature names with the feature importances of the fitted model, the
literal testing strategy, the extra metadata holding the actual and
predicted lists, followed by the two add_score calls. -/
def mkRecord (lib : MLLib M) (st : Settings) (model_filename input_data_filename : String)
    (iris_X : DataFrame) (iris_y : List Cell) (scores : CVScores)
    (predictions : List Cell) (regr_model : M) : ModelMetadata M :=
  ((ModelMetadata.construct
      (os_path_join st.MODEL_DIR (model_filename ++ ".joblib"))
      regr_model
      "Predicting petal length (regression)"
      (get_data_location st input_data_filename)
      none
      iris_X.columns
      (iris_X.columns.zip (lib.feature_importances regr_model))
      "5-fold cross validation, using mean to aggregate fold metrics, no hold-out set."
      none
      { data_type := "csv",
        actual_and_predicted := { actual := iris_y, predicted := predictions } }
    ).add_score "r2" "cv" (listMean scores.test_r2)
    ).add_score "mean_squared_error" "cv" (- listMean scores.test_neg_mean_squared_error)

/-- Embeds train (train.py lines 43-101): load the dataset, cross-validate
with KFold(5, shuffle=True, random_state=0) and a
RandomForestRegressor(20, random_state=1), compute cross-validated
predictions, fit on the whole dataset, assemble the metadata record, dump
the fitted model with joblib, and save the metadata record.  Any error from
a library call is returned unchanged; the trace records the steps completed
before the failure. -/
def train (lib : MLLib M) (csv : String → Except PyError DataFrame)
    (st : Settings) (model_filename input_data_filename : String) : TrainRun M :=
  match load_dataset lib csv st input_data_filename with
  | (evs, .error e) => ⟨evs, .error e⟩
  | (evs, .ok (iris_X, iris_y)) =>
    let regr_model : RFCfg := ⟨20, 1⟩
    let cv : KFoldCfg := ⟨5, true, 0⟩
    match lib.cross_validate cv regr_model iris_X iris_y with
    | .error e => ⟨evs, .error e⟩
    | .ok scores =>
      let evs := evs ++ [Event.crossValidate]
      match lib.cross_val_predict cv regr_model iris_X iris_y with
      | .error e => ⟨evs, .error e⟩
      | .ok predictions =>
        let evs := evs ++ [Event.crossValPredict]
        match lib.fit regr_model iris_X iris_y with
        | .error e => ⟨evs, .error e⟩
        | .ok regr_fitted =>
          let evs := evs ++ [Event.fit]
          let model_location := os_path_join st.MODEL_DIR (model_filename ++ ".joblib")
          let metadata := mkRecord lib st model_filename input_data_filename
            iris_X iris_y scores predictions regr_fitted
          match lib.joblib_dump regr_fitted model_location with
          | .error e => ⟨evs, .error e⟩
          | .ok _ =>
            let evs := evs ++ [Event.dumpModel model_location]
            match lib.save_to_file metadata st.MODEL_METADATA_DIR with
            | .error e => ⟨evs, .error e⟩
            | .ok _ => ⟨evs ++ [Event.saveMetadata st.MODEL_METADATA_DIR], .ok metadata⟩

/-! Concrete instances used to witness that the hypotheses of the theorems
below (success of the library calls, the documented sklearn/pandas length
contracts) are satisfiable. -/

/-- Concrete settings standing in for src/settings.py. -/
def stW : Settings :=
  { DATA_TRANSFORMED := "data/transformed", MODEL_DIR := "models",
    MODEL_METADATA_DIR := "models/metadata" }

/-- A small concrete iris-shaped dataset. -/
def irisFrame : DataFrame :=
  { columns := ["sepal_length", "sepal_width", "petal_length", "petal_width", "species"],
    rows := [[.num 5, .num 3, .num 1, .num (1/5), .str "setosa"],
             [.num 6, .num 3, .num 4, .num (13/10), .str "versicolor"],
             [.num 7, .num 3, .num 6, .num 2, .str "virginica"]] }

/-- Concrete library semantics in which every call succeeds; the shuffle
reverses the rows (a permutation), predictions echo the target, and the
importance vector has one entry per feature column of the iris data. -/
def okLib : MLLib Unit where
  sample_shuffle := fun _ d => { columns := d.columns, rows := d.rows.reverse }
  cross_validate := fun _ _ _ _ => .ok ⟨[1, 0, 1, 0, 1], [-2, -2, -2, -2, -2]⟩
  cross_val_predict := fun _ _ _ y => .ok y
  fit := fun _ _ _ => .ok ()
  feature_importances := fun _ => [1/2, 1/4, 1/4]
  joblib_dump := fun _ _ => .ok ()
  save_to_file := fun _ _ => .ok "models/metadata/m.json"

/-- Filesystem in which every CSV read yields the iris data. -/
def csvOk : String → Except PyError DataFrame := fun _ => .ok irisFrame

/-- Filesystem in which the CSV file is missing. -/
def csvFail : String → Except PyError DataFrame :=
  fun _ => .error (.ioError "No such file or directory")

/-- Filesystem that holds the iris data at the transformed-data path only. -/
def csvOnlyAt : String → Except PyError DataFrame := fun p =>
  if p = "data/transformed/iris.csv" then .ok irisFrame
  else .error (.ioError "No such file or directory")

/-- Library semantics in which everything succeeds except writing the
metadata record, which fails as with an unwritable metadata directory. -/
def failSaveLib : MLLib Unit :=
  { okLib with save_to_file := fun _ _ => .error (.ioError "disk full") }

/-- The X returned by load_dataset on the concrete run: rows reversed,
species and petal_length dropped. -/
def wX : DataFrame :=
  { columns := ["sepal_length", "sepal_width", "petal_width"],
    rows := [[.num 7, .num 3, .num 2], [.num 6, .num 3, .num (13/10)],
             [.num 5, .num 3, .num (1/5)]] }

/-- The y returned by load_dataset on the concrete run: the petal_length
column of the reversed rows. -/
def wy : List Cell := [.num 6, .num 4, .num 1]

/-- The cross-validation scores returned by okLib. -/
def wSc : CVScores := ⟨[1, 0, 1, 0, 1], [-2, -2, -2, -2, -2]⟩

/-- The metadata record written by the concrete successful run. -/
def wRecord : ModelMetadata Unit := mkRecord okLib stW "m" "iris.csv" wX wy wSc wy ()

/-- A dataset missing the species column. -/
def irisNoSpecies : DataFrame :=
  { columns := ["sepal_length", "petal_length"], rows := [[.num 5, .num 1]] }

/-! Helper lemmas. -/

/-- When dropColumns succeeds, the remaining columns are the original ones
with the dropped names filtered out. -/
theorem DataFrame.dropColumns_ok_columns {df X : DataFrame} {cols : List String}
    (h : df.dropColumns cols = .ok X) :
    X.columns = df.columns.filter (fun c => !(cols.contains c)) := by
  unfold DataFrame.dropColumns at h
  split at h
  · cases h; rfl
  · cases h

/-- When getCol succeeds, the returned column has one entry per row. -/
theorem DataFrame.getCol_ok_length {df : DataFrame} {c : String} {l : List Cell}
    (h : df.getCol c = .ok l) : l.length = df.rows.length := by
  unfold DataFrame.getCol at h
  cases hidx : df.columns.findIdx? (fun s => s == c) with
  | some i => rw [hidx] at h; cases h; simp
  | none => rw [hidx] at h; cases h

/-- A name listed among the dropped columns never survives the filter. -/
theorem not_mem_filter_dropped {l cols : List String} {c : String}
    (hc : cols.contains c = true) :
    c ∉ l.filter (fun x => !(cols.contains x)) := by
  intro hmem
  have h := List.of_mem_filter hmem
  rw [hc] at h
  cases h

/-- Characterization of a fully successful run of train: given the values
returned by each library call, the trace lists the seven steps in program
order and the written record is exactly the one assembled by mkRecord. -/
theorem train_ok_spec {M : Type} (lib : MLLib M) (csv : String → Except PyError DataFrame)
    (st : Settings) (mf df : String) (d X : DataFrame) (y : List Cell)
    (sc : CVScores) (pr : List Cell) (fm : M) (s : String)
    (h1 : csv (get_data_location st df) = .ok d)
    (h2 : (lib.sample_shuffle 1 d).dropColumns ["species", "petal_length"] = .ok X)
    (h3 : (lib.sample_shuffle 1 d).getCol "petal_length" = .ok y)
    (h4 : lib.cross_validate ⟨5, true, 0⟩ ⟨20, 1⟩ X y = .ok sc)
    (h5 : lib.cross_val_predict ⟨5, true, 0⟩ ⟨20, 1⟩ X y = .ok pr)
    (h6 : lib.fit ⟨20, 1⟩ X y = .ok fm)
    (h7 : lib.joblib_dump fm (os_path_join st.MODEL_DIR (mf ++ ".joblib")) = .ok ())
    (h8 : lib.save_to_file (mkRecord lib st mf df X y sc pr fm) st.MODEL_METADATA_DIR = .ok s) :
    train lib csv st mf df =
      ⟨[Event.readCsv (get_data_location st df), Event.shuffle, Event.crossValidate,
        Event.crossValPredict, Event.fit,
        Event.dumpModel (os_path_join st.MODEL_DIR (mf ++ ".joblib")),
        Event.saveMetadata st.MODEL_METADATA_DIR],
       .ok (mkRecord lib st mf df X y sc pr fm)⟩ := by
  simp only [train, load_dataset, h1, h2, h3, h4, h5, h6, h7, h8]
  rfl

/-! Claim C1. -/

/-- C1 counterexample: a concrete run in which writing the metadata record
fails (save_to_file raises as with an unwritable directory) yet a durable
model artifact does exist: joblib.dump has already written
models/m.joblib before save_to_file was called.  This refutes the claim
that nothing durable has been produced for such a run. -/
theorem c1_save_failure_leaves_model_artifact :
    (train failSaveLib csvOk stW "m" "iris.csv").result = .error (.ioError "disk full") ∧
    Event.dumpModel "models/m.joblib" ∈ (train failSaveLib csvOk stW "m" "iris.csv").events := by
  have hev : (train failSaveLib csvOk stW "m" "iris.csv").events =
      [Event.readCsv "data/transformed/iris.csv", Event.shuffle, Event.crossValidate,
       Event.crossValPredict, Event.fit, Event.dumpModel "models/m.joblib"] := rfl
  exact ⟨rfl, by rw [hev]; simp⟩

/-- C1 amended: if every step through joblib.dump succeeds and save_to_file
fails, the run fails with that error and no metadata file has been produced
(no saveMetadata event), but the model artifact has already been written
(the dumpModel event is in the trace): the model dump at train.py line 98
precedes the metadata save at line 101. -/
theorem c1_amended_no_metadata_but_model_artifact {M : Type} (lib : MLLib M)
    (csv : String → Except PyError DataFrame)
    (st : Settings) (mf df : String) (d X : DataFrame) (y : List Cell)
    (sc : CVScores) (pr : List Cell) (fm : M) (e : PyError)
    (h1 : csv (get_data_location st df) = .ok d)
    (h2 : (lib.sample_shuffle 1 d).dropColumns ["species", "petal_length"] = .ok X)
    (h3 : (lib.sample_shuffle 1 d).getCol "petal_length" = .ok y)
    (h4 : lib.cross_validate ⟨5, true, 0⟩ ⟨20, 1⟩ X y = .ok sc)
    (h5 : lib.cross_val_predict ⟨5, true, 0⟩ ⟨20, 1⟩ X y = .ok pr)
    (h6 : lib.fit ⟨20, 1⟩ X y = .ok fm)
    (h7 : lib.joblib_dump fm (os_path_join st.MODEL_DIR (mf ++ ".joblib")) = .ok ())
    (hsave : ∀ m dir, lib.save_to_file m dir = .error e) :
    (train lib csv st mf df).result = .error e ∧
    Event.dumpModel (os_path_join st.MODEL_DIR (mf ++ ".joblib")) ∈
      (train lib csv st mf df).events ∧
    Event.saveMetadata st.MODEL_METADATA_DIR ∉ (train lib csv st mf df).events := by
  simp only [train, load_dataset, h1, h2, h3, h4, h5, h6, h7, hsave]
  simp

/-- C1 witness: the amended statement holds on the concrete failing-save run. -/
theorem c1_witness :
    (train failSaveLib csvOk stW "m" "iris.csv").result = .error (.ioError "disk full") ∧
    Event.dumpModel (os_path_join stW.MODEL_DIR ("m" ++ ".joblib")) ∈
      (train failSaveLib csvOk stW "m" "iris.csv").events ∧
    Event.saveMetadata stW.MODEL_METADATA_DIR ∉
      (train failSaveLib csvOk stW "m" "iris.csv").events :=
  c1_amended_no_metadata_but_model_artifact failSaveLib csvOk stW "m" "iris.csv"
    irisFrame wX wy wSc wy () (.ioError "disk full")
    rfl rfl rfl rfl rfl rfl rfl (fun _ _ => rfl)

/-! Claim C2. -/

/-- C2: in every successful run of train, the feature_importances sequence
passed to ModelMetadata is the positional zip of feature_names with the
fitted model importance vector; given the sklearn contract that the
importance vector has one entry per feature column, the first components
are exactly the feature names in order and the pairs list has the same
length as feature_names. -/
theorem c2_feature_importances_zip {M : Type} (lib : MLLib M)
    (csv : String → Except PyError DataFrame)
    (st : Settings) (mf df : String) (d X : DataFrame) (y : List Cell)
    (sc : CVScores) (pr : List Cell) (fm : M) (s : String)
    (h1 : csv (get_data_location st df) = .ok d)
    (h2 : (lib.sample_shuffle 1 d).dropColumns ["species", "petal_length"] = .ok X)
    (h3 : (lib.sample_shuffle 1 d).getCol "petal_length" = .ok y)
    (h4 : lib.cross_validate ⟨5, true, 0⟩ ⟨20, 1⟩ X y = .ok sc)
    (h5 : lib.cross_val_predict ⟨5, true, 0⟩ ⟨20, 1⟩ X y = .ok pr)
    (h6 : lib.fit ⟨20, 1⟩ X y = .ok fm)
    (h7 : lib.joblib_dump fm (os_path_join st.MODEL_DIR (mf ++ ".joblib")) = .ok ())
    (h8 : lib.save_to_file (mkRecord lib st mf df X y sc pr fm) st.MODEL_METADATA_DIR = .ok s)
    (hlen : (lib.feature_importances fm).length = X.columns.length) :
    (train lib csv st mf df).result = .ok (mkRecord lib st mf df X y sc pr fm) ∧
    (mkRecord lib st mf df X y sc pr fm).feature_importances =
      X.columns.zip (lib.feature_importances fm) ∧
    (mkRecord lib st mf df X y sc pr fm).feature_importances.map Prod.fst =
      (mkRecord lib st mf df X y sc pr fm).feature_names ∧
    (mkRecord lib st mf df X y sc pr fm).feature_importances.length =
      (mkRecord lib st mf df X y sc pr fm).feature_names.length := by
  refine ⟨?_, rfl, ?_, ?_⟩
  · rw [train_ok_spec lib csv st mf df d X y sc pr fm s h1 h2 h3 h4 h5 h6 h7 h8]
  · simp only [mkRecord, ModelMetadata.add_score, ModelMetadata.construct]
    exact List.map_fst_zip _ _ (le_of_eq hlen.symm)
  · simp only [mkRecord, ModelMetadata.add_score, ModelMetadata.construct, List.length_zip,
      hlen, Nat.min_self]

/-- C2 witness: the statement holds on the concrete successful run. -/
theorem c2_witness :
    (train okLib csvOk stW "m" "iris.csv").result = .ok wRecord ∧
    wRecord.feature_importances = wX.columns.zip (okLib.feature_importances ()) ∧
    wRecord.feature_importances.map Prod.fst = wRecord.feature_names ∧
    wRecord.feature_importances.length = wRecord.feature_names.length :=
  c2_feature_importances_zip okLib csvOk stW "m" "iris.csv" irisFrame wX wy wSc wy ()
    "models/metadata/m.json" rfl rfl rfl rfl rfl rfl rfl rfl rfl

/-! Claim C3. -/

/-- C3: train catches no exceptions.  Whichever library call fails first —
reading the CSV, dropping the columns, selecting the target column,
cross-validation, cross-validated prediction, fitting, model
serialization, or metadata saving — train returns exactly that error,
unchanged, with no retry. -/
theorem c3_errors_propagate {M : Type} (lib : MLLib M)
    (csv : String → Except PyError DataFrame) (st : Settings) (mf df : String) :
    (∀ e, csv (get_data_location st df) = .error e →
      (train lib csv st mf df).result = .error e) ∧
    (∀ d e, csv (get_data_location st df) = .ok d →
      (lib.sample_shuffle 1 d).dropColumns ["species", "petal_length"] = .error e →
      (train lib csv st mf df).result = .error e) ∧
    (∀ d X e, csv (get_data_location st df) = .ok d →
      (lib.sample_shuffle 1 d).dropColumns ["species", "petal_length"] = .ok X →
      (lib.sample_shuffle 1 d).getCol "petal_length" = .error e →
      (train lib csv st mf df).result = .error e) ∧
    (∀ d X y e, csv (get_data_location st df) = .ok d →
      (lib.sample_shuffle 1 d).dropColumns ["species", "petal_length"] = .ok X →
      (lib.sample_shuffle 1 d).getCol "petal_length" = .ok y →
      lib.cross_validate ⟨5, true, 0⟩ ⟨20, 1⟩ X y = .error e →
      (train lib csv st mf df).result = .error e) ∧
    (∀ d X y sc e, csv (get_data_location st df) = .ok d →
      (lib.sample_shuffle 1 d).dropColumns ["species", "petal_length"] = .ok X →
      (lib.sample_shuffle 1 d).getCol "petal_length" = .ok y →
      lib.cross_validate ⟨5, true, 0⟩ ⟨20, 1⟩ X y = .ok sc →
      lib.cross_val_predict ⟨5, true, 0⟩ ⟨20, 1⟩ X y = .error e →
      (train lib csv st mf df).result = .error e) ∧
    (∀ d X y sc pr e, csv (get_data_location st df) = .ok d →
      (lib.sample_shuffle 1 d).dropColumns ["species", "petal_length"] = .ok X →
      (lib.sample_shuffle 1 d).getCol "petal_length" = .ok y →
      lib.cross_validate ⟨5, true, 0⟩ ⟨20, 1⟩ X y = .ok sc →
      lib.cross_val_predict ⟨5, true, 0⟩ ⟨20, 1⟩ X y = .ok pr →
      lib.fit ⟨20, 1⟩ X y = .error e →
      (train lib csv st mf df).result = .error e) ∧
    (∀ d X y sc pr fm e, csv (get_data_location st df) = .ok d →
      (lib.sample_shuffle 1 d).dropColumns ["species", "petal_length"] = .ok X →
      (lib.sample_shuffle 1 d).getCol "petal_length" = .ok y →
      lib.cross_validate ⟨5, true, 0⟩ ⟨20, 1⟩ X y = .ok sc →
      lib.cross_val_predict ⟨5, true, 0⟩ ⟨20, 1⟩ X y = .ok pr →
      lib.fit ⟨20, 1⟩ X y = .ok fm →
      lib.joblib_dump fm (os_path_join st.MODEL_DIR (mf ++ ".joblib")) = .error e →
      (train lib csv st mf df).result = .error e) ∧
    (∀ d X y sc pr fm e, csv (get_data_location st df) = .ok d →
      (lib.sample_shuffle 1 d).dropColumns ["species", "petal_length"] = .ok X →
      (lib.sample_shuffle 1 d).getCol "petal_length" = .ok y →
      lib.cross_validate ⟨5, true, 0⟩ ⟨20, 1⟩ X y = .ok sc →
      lib.cross_val_predict ⟨5, true, 0⟩ ⟨20, 1⟩ X y = .ok pr →
      lib.fit ⟨20, 1⟩ X y = .ok fm →
      lib.joblib_dump fm (os_path_join st.MODEL_DIR (mf ++ ".joblib")) = .ok () →
      lib.save_to_file (mkRecord lib st mf df X y sc pr fm) st.MODEL_METADATA_DIR = .error e →
      (train lib csv st mf df).result = .error e) := by
  refine ⟨?_, ?_, ?_, ?_, ?_, ?_, ?_, ?_⟩ <;>
    intros <;> simp only [train, load_dataset, *]

/-- C3 witness: a missing CSV file error surfaces unchanged from the run. -/
theorem c3_witness :
    (train okLib csvFail stW "m" "iris.csv").result =
      .error (.ioError "No such file or directory") :=
  (c3_errors_propagate okLib csvFail stW "m" "iris.csv").1
    (.ioError "No such file or directory") rfl

/-! Claim C4. -/

/-- C4: a successful run of train performs its steps in a fixed linear
order: read the CSV, shuffle, cross-validate, compute cross-validated
predictions, fit, dump the model artifact, write the metadata record —
the trace is exactly this seven-step list, so in particular the six steps
named by the claim (load CSV, shuffle, k-fold cross-validate, fit,
serialize, write metadata) each occur exactly once and in that order. -/
theorem c4_step_order {M : Type} (lib : MLLib M)
    (csv : String → Except PyError DataFrame)
    (st : Settings) (mf df : String) (d X : DataFrame) (y : List Cell)
    (sc : CVScores) (pr : List Cell) (fm : M) (s : String)
    (h1 : csv (get_data_location st df) = .ok d)
    (h2 : (lib.sample_shuffle 1 d).dropColumns ["species", "petal_length"] = .ok X)
    (h3 : (lib.sample_shuffle 1 d).getCol "petal_length" = .ok y)
    (h4 : lib.cross_validate ⟨5, true, 0⟩ ⟨20, 1⟩ X y = .ok sc)
    (h5 : lib.cross_val_predict ⟨5, true, 0⟩ ⟨20, 1⟩ X y = .ok pr)
    (h6 : lib.fit ⟨20, 1⟩ X y = .ok fm)
    (h7 : lib.joblib_dump fm (os_path_join st.MODEL_DIR (mf ++ ".joblib")) = .ok ())
    (h8 : lib.save_to_file (mkRecord lib st mf df X y sc pr fm) st.MODEL_METADATA_DIR = .ok s) :
    (train lib csv st mf df).events =
      [Event.readCsv (get_data_location st df), Event.shuffle, Event.crossValidate,
       Event.crossValPredict, Event.fit,
       Event.dumpModel (os_path_join st.MODEL_DIR (mf ++ ".joblib")),
       Event.saveMetadata st.MODEL_METADATA_DIR] ∧
    [Event.readCsv (get_data_location st df), Event.shuffle, Event.crossValidate,
     Event.fit, Event.dumpModel (os_path_join st.MODEL_DIR (mf ++ ".joblib")),
     Event.saveMetadata st.MODEL_METADATA_DIR].Sublist
      (train lib csv st mf df).events := by
  have hev := train_ok_spec lib csv st mf df d X y sc pr fm s h1 h2 h3 h4 h5 h6 h7 h8
  rw [hev]
  refine ⟨rfl, ?_⟩
  exact .cons₂ _ (.cons₂ _ (.cons₂ _ (.cons _ (.cons₂ _ (.cons₂ _ (.cons₂ _ .slnil))))))

/-- C4 witness: the step order holds on the concrete successful run. -/
theorem c4_witness :
    (train okLib csvOk stW "m" "iris.csv").events =
      [Event.readCsv (get_data_location stW "iris.csv"), Event.shuffle, Event.crossValidate,
       Event.crossValPredict, Event.fit,
       Event.dumpModel (os_path_join stW.MODEL_DIR ("m" ++ ".joblib")),
       Event.saveMetadata stW.MODEL_METADATA_DIR] ∧
    [Event.readCsv (get_data_location stW "iris.csv"), Event.shuffle, Event.crossValidate,
     Event.fit, Event.dumpModel (os_path_join stW.MODEL_DIR ("m" ++ ".joblib")),
     Event.saveMetadata stW.MODEL_METADATA_DIR].Sublist
      (train okLib csvOk stW "m" "iris.csv").events :=
  c4_step_order okLib csvOk stW "m" "iris.csv" irisFrame wX wy wSc wy ()
    "models/metadata/m.json" rfl rfl rfl rfl rfl rfl rfl rfl

/-! Claim C5. -/

/-- C5: the source_data_location recorded in the metadata equals
os.path.join(DATA_TRANSFORMED, input_data_filename), and the CSV read of
the run happened at exactly that path. -/
theorem c5_source_data_location {M : Type} (lib : MLLib M)
    (csv : String → Except PyError DataFrame)
    (st : Settings) (mf df : String) (d X : DataFrame) (y : List Cell)
    (sc : CVScores) (pr : List Cell) (fm : M) (s : String)
    (h1 : csv (get_data_location st df) = .ok d)
    (h2 : (lib.sample_shuffle 1 d).dropColumns ["species", "petal_length"] = .ok X)
    (h3 : (lib.sample_shuffle 1 d).getCol "petal_length" = .ok y)
    (h4 : lib.cross_validate ⟨5, true, 0⟩ ⟨20, 1⟩ X y = .ok sc)
    (h5 : lib.cross_val_predict ⟨5, true, 0⟩ ⟨20, 1⟩ X y = .ok pr)
    (h6 : lib.fit ⟨20, 1⟩ X y = .ok fm)
    (h7 : lib.joblib_dump fm (os_path_join st.MODEL_DIR (mf ++ ".joblib")) = .ok ())
    (h8 : lib.save_to_file (mkRecord lib st mf df X y sc pr fm) st.MODEL_METADATA_DIR = .ok s) :
    (train lib csv st mf df).result = .ok (mkRecord lib st mf df X y sc pr fm) ∧
    (mkRecord lib st mf df X y sc pr fm).source_data_location =
      os_path_join st.DATA_TRANSFORMED df ∧
    Event.readCsv ((mkRecord lib st mf df X y sc pr fm).source_data_location) ∈
      (train lib csv st mf df).events := by
  have hev := train_ok_spec lib csv st mf df d X y sc pr fm s h1 h2 h3 h4 h5 h6 h7 h8
  rw [hev]
  exact ⟨rfl, rfl, by simp [mkRecord, ModelMetadata.add_score, ModelMetadata.construct,
    get_data_location]⟩

/-- C5 witness: the recorded source data location on the concrete run. -/
theorem c5_witness :
    (train okLib csvOk stW "m" "iris.csv").result = .ok wRecord ∧
    wRecord.source_data_location = os_path_join stW.DATA_TRANSFORMED "iris.csv" ∧
    Event.readCsv wRecord.source_data_location ∈
      (train okLib csvOk stW "m" "iris.csv").events :=
  c5_source_data_location okLib csvOk stW "m" "iris.csv" irisFrame wX wy wSc wy ()
    "models/metadata/m.json" rfl rfl rfl rfl rfl rfl rfl rfl

/-! Claim C6. -/

/-- C6: the model_location recorded in the metadata equals
os.path.join(MODEL_DIR, model_filename ++ ".joblib"), and the model
artifact dump of the run happened at exactly that path. -/
theorem c6_model_location {M : Type} (lib : MLLib M)
    (csv : String → Except PyError DataFrame)
    (st : Settings) (mf df : String) (d X : DataFrame) (y : List Cell)
    (sc : CVScores) (pr : List Cell) (fm : M) (s : String)
    (h1 : csv (get_data_location st df) = .ok d)
    (h2 : (lib.sample_shuffle 1 d).dropColumns ["species", "petal_length"] = .ok X)
    (h3 : (lib.sample_shuffle 1 d).getCol "petal_length" = .ok y)
    (h4 : lib.cross_validate ⟨5, true, 0⟩ ⟨20, 1⟩ X y = .ok sc)
    (h5 : lib.cross_val_predict ⟨5, true, 0⟩ ⟨20, 1⟩ X y = .ok pr)
    (h6 : lib.fit ⟨20, 1⟩ X y = .ok fm)
    (h7 : lib.joblib_dump fm (os_path_join st.MODEL_DIR (mf ++ ".joblib")) = .ok ())
    (h8 : lib.save_to_file (mkRecord lib st mf df X y sc pr fm) st.MODEL_METADATA_DIR = .ok s) :
    (train lib csv st mf df).result = .ok (mkRecord lib st mf df X y sc pr fm) ∧
    (mkRecord lib st mf df X y sc pr fm).model_location =
      os_path_join st.MODEL_DIR (mf ++ ".joblib") ∧
    Event.dumpModel ((mkRecord lib st mf df X y sc pr fm).model_location) ∈
      (train lib csv st mf df).events := by
  have hev := train_ok_spec lib csv st mf df d X y sc pr fm s h1 h2 h3 h4 h5 h6 h7 h8
  rw [hev]
  exact ⟨rfl, rfl, by simp [mkRecord, ModelMetadata.add_score, ModelMetadata.construct]⟩

/-- C6 witness: the recorded model location on the concrete run. -/
theorem c6_witness :
    (train okLib csvOk stW "m" "iris.csv").result = .ok wRecord ∧
    wRecord.model_location = os_path_join stW.MODEL_DIR ("m" ++ ".joblib") ∧
    Event.dumpModel wRecord.model_location ∈
      (train okLib csvOk stW "m" "iris.csv").events :=
  c6_model_location okLib csvOk stW "m" "iris.csv" irisFrame wX wy wSc wy ()
    "models/metadata/m.json" rfl rfl rfl rfl rfl rfl rfl rfl

/-! Claim C7. -/

/-- C7: a successful run records exactly two scores, keyed by the distinct
pairs (r2, cv) and (mean_squared_error, cv); given the sklearn contract
that 5-fold cross-validation yields five per-fold scores per metric, the
first value is the arithmetic mean of the five per-fold r2 scores and the
second is the negation of the mean of the per-fold negative
mean-squared-error scores. -/
theorem c7_two_scores {M : Type} (lib : MLLib M)
    (csv : String → Except PyError DataFrame)
    (st : Settings) (mf df : String) (d X : DataFrame) (y : List Cell)
    (sc : CVScores) (pr : List Cell) (fm : M) (s : String)
    (h1 : csv (get_data_location st df) = .ok d)
    (h2 : (lib.sample_shuffle 1 d).dropColumns ["species", "petal_length"] = .ok X)
    (h3 : (lib.sample_shuffle 1 d).getCol "petal_length" = .ok y)
    (h4 : lib.cross_validate ⟨5, true, 0⟩ ⟨20, 1⟩ X y = .ok sc)
    (h5 : lib.cross_val_predict ⟨5, true, 0⟩ ⟨20, 1⟩ X y = .ok pr)
    (h6 : lib.fit ⟨20, 1⟩ X y = .ok fm)
    (h7 : lib.joblib_dump fm (os_path_join st.MODEL_DIR (mf ++ ".joblib")) = .ok ())
    (h8 : lib.save_to_file (mkRecord lib st mf df X y sc pr fm) st.MODEL_METADATA_DIR = .ok s)
    (hr2 : sc.test_r2.length = 5)
    (hng : sc.test_neg_mean_squared_error.length = 5) :
    (train lib csv st mf df).result = .ok (mkRecord lib st mf df X y sc pr fm) ∧
    (mkRecord lib st mf df X y sc pr fm).scores =
      [(("r2", "cv"), sc.test_r2.sum / 5),
       (("mean_squared_error", "cv"), -(sc.test_neg_mean_squared_error.sum / 5))] ∧
    (("r2", "cv") : String × String) ≠ ("mean_squared_error", "cv") := by
  refine ⟨?_, ?_, by decide⟩
  · rw [train_ok_spec lib csv st mf df d X y sc pr fm s h1 h2 h3 h4 h5 h6 h7 h8]
  · simp [mkRecord, ModelMetadata.add_score, ModelMetadata.construct, listMean, hr2, hng]

/-- C7 witness: on the concrete run the recorded scores are the fold
averages 2/5 for r2 and 2 for the (positive) mean squared error. -/
theorem c7_witness :
    (train okLib csvOk stW "m" "iris.csv").result = .ok wRecord ∧
    wRecord.scores =
      [(("r2", "cv"), wSc.test_r2.sum / 5),
       (("mean_squared_error", "cv"), -(wSc.test_neg_mean_squared_error.sum / 5))] ∧
    (("r2", "cv") : String × String) ≠ ("mean_squared_error", "cv") :=
  c7_two_scores okLib csvOk stW "m" "iris.csv" irisFrame wX wy wSc wy ()
    "models/metadata/m.json" rfl rfl rfl rfl rfl rfl rfl rfl rfl rfl

/-! Claim C8. -/

/-- C8: in a successful run, the actual list stored under
extra_metadata.actual_and_predicted is the full target column and the
predicted list holds one cross-validated prediction per sample (the
sklearn contract), so both lists have length equal to the number of rows
of the loaded dataset (the pandas contract: shuffling with frac=1 keeps
every row). -/
theorem c8_actual_predicted_lengths {M : Type} (lib : MLLib M)
    (csv : String → Except PyError DataFrame)
    (st : Settings) (mf df : String) (d X : DataFrame) (y : List Cell)
    (sc : CVScores) (pr : List Cell) (fm : M) (s : String)
    (h1 : csv (get_data_location st df) = .ok d)
    (h2 : (lib.sample_shuffle 1 d).dropColumns ["species", "petal_length"] = .ok X)
    (h3 : (lib.sample_shuffle 1 d).getCol "petal_length" = .ok y)
    (h4 : lib.cross_validate ⟨5, true, 0⟩ ⟨20, 1⟩ X y = .ok sc)
    (h5 : lib.cross_val_predict ⟨5, true, 0⟩ ⟨20, 1⟩ X y = .ok pr)
    (h6 : lib.fit ⟨20, 1⟩ X y = .ok fm)
    (h7 : lib.joblib_dump fm (os_path_join st.MODEL_DIR (mf ++ ".joblib")) = .ok ())
    (h8 : lib.save_to_file (mkRecord lib st mf df X y sc pr fm) st.MODEL_METADATA_DIR = .ok s)
    (hpr : pr.length = y.length)
    (hshuf : (lib.sample_shuffle 1 d).rows.length = d.rows.length) :
    (train lib csv st mf df).result = .ok (mkRecord lib st mf df X y sc pr fm) ∧
    (mkRecord lib st mf df X y sc pr fm).extra_metadata.actual_and_predicted.actual.length =
      d.rows.length ∧
    (mkRecord lib st mf df X y sc pr fm).extra_metadata.actual_and_predicted.predicted.length =
      d.rows.length ∧
    (mkRecord lib st mf df X y sc pr fm).extra_metadata.actual_and_predicted.actual.length =
      (mkRecord lib st mf df X y sc pr fm).extra_metadata.actual_and_predicted.predicted.length := by
  have hy : y.length = d.rows.length := by
    rw [DataFrame.getCol_ok_length h3, hshuf]
  refine ⟨?_, ?_, ?_, ?_⟩
  · rw [train_ok_spec lib csv st mf df d X y sc pr fm s h1 h2 h3 h4 h5 h6 h7 h8]
  · simpa [mkRecord, ModelMetadata.add_score, ModelMetadata.construct] using hy
  · simpa [mkRecord, ModelMetadata.add_score, ModelMetadata.construct] using hpr.trans hy
  · simpa [mkRecord, ModelMetadata.add_score, ModelMetadata.construct] using hpr.symm

/-- C8 witness: on the concrete run both lists have three entries, one per
row of the iris data. -/
theorem c8_witness :
    (train okLib csvOk stW "m" "iris.csv").result = .ok wRecord ∧
    wRecord.extra_metadata.actual_and_predicted.actual.length = irisFrame.rows.length ∧
    wRecord.extra_metadata.actual_and_predicted.predicted.length = irisFrame.rows.length ∧
    wRecord.extra_metadata.actual_and_predicted.actual.length =
      wRecord.extra_metadata.actual_and_predicted.predicted.length :=
  c8_actual_predicted_lengths okLib csvOk stW "m" "iris.csv" irisFrame wX wy wSc wy ()
    "models/metadata/m.json" rfl rfl rfl rfl rfl rfl rfl rfl rfl rfl

/-! Claim C9. -/

/-- C9: train is deterministic.  The library semantics are deterministic
functions of the data and of the random seeds, and train passes fixed
constants for every seed (sample random_state 1, RandomForestRegressor
random_state 1, KFold random_state 0 — the literal configurations in the
body of train/load_dataset), so two runs that read identical CSV contents
at the input path produce identical traces and identical metadata records,
even if the rest of the filesystem differs. -/
theorem c9_deterministic {M : Type} (lib : MLLib M)
    (csv1 csv2 : String → Except PyError DataFrame)
    (st : Settings) (mf df : String)
    (h : csv1 (get_data_location st df) = csv2 (get_data_location st df)) :
    train lib csv1 st mf df = train lib csv2 st mf df := by
  simp only [train, load_dataset, h]

/-- C9 witness: the run on the everywhere-iris filesystem coincides with the
run on the filesystem holding the iris data only at the input path. -/
theorem c9_witness :
    train okLib csvOk stW "m" "iris.csv" = train okLib csvOnlyAt stW "m" "iris.csv" :=
  c9_deterministic okLib csvOk csvOnlyAt stW "m" "iris.csv" rfl

/-! Claim C10. -/

/-- C10: load_dataset takes the petal_length column of the shuffled data as
the target and drops both species and petal_length from the feature
matrix, so whenever it succeeds neither name is among the feature columns
— hence neither is among the feature_names recorded in the metadata — and
whenever either column is absent from the CSV (shuffling keeps the columns,
the pandas contract) load_dataset returns an error instead. -/
theorem c10_target_and_dropped_columns {M : Type} (lib : MLLib M)
    (csv : String → Except PyError DataFrame) (st : Settings) (df : String)
    (d : DataFrame)
    (hread : csv (get_data_location st df) = .ok d)
    (hcols : (lib.sample_shuffle 1 d).columns = d.columns) :
    (∀ X y evs, load_dataset lib csv st df = (evs, .ok (X, y)) →
      (lib.sample_shuffle 1 d).getCol "petal_length" = .ok y ∧
      "species" ∉ X.columns ∧ "petal_length" ∉ X.columns) ∧
    (("species" ∉ d.columns ∨ "petal_length" ∉ d.columns) →
      ∃ e evs, load_dataset lib csv st df = (evs, .error e)) ∧
    (∀ X, (lib.sample_shuffle 1 d).dropColumns ["species", "petal_length"] = .ok X →
      ∀ mf y sc pr fm,
        "species" ∉ (mkRecord lib st mf df X y sc pr fm).feature_names ∧
        "petal_length" ∉ (mkRecord lib st mf df X y sc pr fm).feature_names) := by
  refine ⟨?_, ?_, ?_⟩
  · intro X y evs h
    cases hdrop : (lib.sample_shuffle 1 d).dropColumns ["species", "petal_length"] with
    | error e => simp only [load_dataset, hread, hdrop] at h; simp at h
    | ok X' =>
      cases hcol : (lib.sample_shuffle 1 d).getCol "petal_length" with
      | error e => simp only [load_dataset, hread, hdrop, hcol] at h; simp at h
      | ok y' =>
        simp only [load_dataset, hread, hdrop, hcol, Prod.mk.injEq, Except.ok.injEq] at h
        obtain ⟨-, hX, hy⟩ := h
        subst hX; subst hy
        refine ⟨rfl, ?_, ?_⟩
        · rw [DataFrame.dropColumns_ok_columns hdrop]
          exact not_mem_filter_dropped (by decide)
        · rw [DataFrame.dropColumns_ok_columns hdrop]
          exact not_mem_filter_dropped (by decide)
  · intro habs
    have hdrop : (lib.sample_shuffle 1 d).dropColumns ["species", "petal_length"] =
        .error (.keyError "not found in axis") := by
      unfold DataFrame.dropColumns
      rw [if_neg]
      intro hall
      rw [List.all_eq_true] at hall
      cases habs with
      | inl hs =>
        have hc := hall "species" (by simp)
        rw [hcols] at hc
        exact hs (by simpa using hc)
      | inr hp =>
        have hc := hall "petal_length" (by simp)
        rw [hcols] at hc
        exact hp (by simpa using hc)
    exact ⟨.keyError "not found in axis",
      [Event.readCsv (get_data_location st df), Event.shuffle],
      by simp only [load_dataset, hread, hdrop]⟩
  · intro X hdrop mf y sc pr fm
    have hfn : (mkRecord lib st mf df X y sc pr fm).feature_names = X.columns := rfl
    rw [hfn, DataFrame.dropColumns_ok_columns hdrop]
    exact ⟨not_mem_filter_dropped (by decide), not_mem_filter_dropped (by decide)⟩

/-- C10 witness: on the concrete run the target is the petal_length column
and the dropped names are absent from the features; on a dataset missing
the species column, load_dataset fails. -/
theorem c10_witness :
    ((okLib.sample_shuffle 1 irisFrame).getCol "petal_length" = .ok wy ∧
      "species" ∉ wX.columns ∧ "petal_length" ∉ wX.columns) ∧
    (∃ e evs, load_dataset okLib (fun _ => .ok irisNoSpecies) stW "iris.csv" =
      (evs, .error e)) :=
  ⟨(c10_target_and_dropped_columns okLib csvOk stW "iris.csv" irisFrame rfl rfl).1
      wX wy [Event.readCsv (get_data_location stW "iris.csv"), Event.shuffle] rfl,
   (c10_target_and_dropped_columns okLib (fun _ => .ok irisNoSpecies) stW "iris.csv"
      irisNoSpecies rfl rfl).2.1 (Or.inl (by decide))⟩
